import Mathlib

/-!
Verification of the meeting-transcript multi-agent routing core.

This file gives a shallow embedding of the core components of the repository
and proves or refutes the frozen claims about them:

* `src/app.py` — the invocation entrypoint (`agent_invocation`);
* `src/agents/orchestrator.py` — the coordinator (`OrchestratorAgent.query`,
  `coordinate_analysis`);
* `src/agents/jira_agent.py` — the ticketing handler (`create_jira_ticket`);
* `src/agents/meetings_agent.py` — the scheduling handler
  (`create_meeting_ics`);
* `src/agents/email_agent.py` — the notification handler (`send_sns_email`).

Modelling conventions:

* Python strings are Lean `String`s; Python truthiness of a string is
  `pyTruthy` (non-empty); `str.strip()` is `pyStrip` (the ASCII whitespace
  fragment of the Python definition).
* The external decision-making session (the `strands` `Agent` object built by
  the coordinator) is abstracted as a `Session`: a function from a prompt to
  `Except String String` — `.error` models a raised Python exception with its
  message, `.ok` the textual answer.  Handlers reached through the session
  are likewise abstracted as functions passed in as parameters, so a theorem
  quantified over all such functions shows behaviour independent of them
  (hence established without invoking them).
* Fallible Python code (`ValueError`, `OverflowError`, arbitrary raised
  exceptions) is modelled with `Except`.
* `datetime` values are civil field records (`PyDateTime`); `timedelta`
  addition goes through linear minute arithmetic on the proleptic Gregorian
  calendar, mirroring CPython `datetime` semantics on its representable range
  (years 1..9999); `create_meeting_ics` surfaces the out-of-range case of the
  addition as `MeetingError.overflow`, the model of the `OverflowError` that
  CPython raises there.  `strftime` numeric directives are rendered
  zero-padded to their documented widths.
-/

/-- Python truthiness of a string: `not s` is true exactly when `s` is empty,
so a string is truthy iff it is non-empty (whitespace-only strings are
truthy). -/
def pyTruthy (s : String) : Bool := s != ""

/-- The ASCII whitespace characters recognised by Python `str.strip()`
(space, tab, newline, carriage return, vertical tab, form feed). -/
def pyIsSpace (c : Char) : Bool :=
  c == ' ' || c == '\t' || c == '\n' || c == '\r' || c == '\x0b' || c == '\x0c'

/-- Python `str.strip()` (restricted to its ASCII whitespace fragment):
drop whitespace from both ends. -/
def pyStrip (s : String) : String :=
  ⟨((s.data.dropWhile pyIsSpace).reverse.dropWhile pyIsSpace).reverse⟩

/-- The three capability handlers wrapped by the coordinator tools
(`src/agents/orchestrator.py`): the ticketing, scheduling and notification
specialists. -/
inductive Handler
  | jira
  | meetings
  | email
deriving DecidableEq

/-- The coordinator internal decision-making session (the `strands.Agent`
built in `OrchestratorAgent.query`), abstracted: a prompt goes in, either a
textual answer comes out (`.ok`) or a Python exception escapes (`.error`,
carrying the message).  This is the "decision-making process" of the spec. -/
structure Session where
  run : String → Except String String

/-- The mutable state of one `OrchestratorAgent` instance: the `self.agent`
attribute, `None` until the first `query` call (`self.agent = None` in
`__init__`). -/
structure OrchestratorState where
  agent : Option Session

/-- `OrchestratorAgent.query` (src/agents/orchestrator.py lines 161-185),
embedded as an explicit state transformer.  In the source, the statements
`result = self.agent(prompt)` and `return str(result)` are indented *inside*
the `if not self.agent:` block, so:

* on a call with `self.agent` unset, the session is created, stored, invoked,
  and its textual result returned;
* on any later call, the `if` body is skipped and the method falls through,
  returning Python `None` — modelled by the `Option.none` payload — without
  touching the session.

The session constructor is the `mkSession` parameter (the `Agent(...)` call);
a raised exception from the session invocation is the `.error` case, and the
assignment `self.agent = Agent(...)` precedes the invocation, so the state
holds the session in both cases. -/
def OrchestratorAgent.query (mkSession : Session) (st : OrchestratorState)
    (prompt : String) : Except String (Option String) × OrchestratorState :=
  match st.agent with
  | none =>
      let a := mkSession
      match a.run prompt with
      | .error e => (.error e, ⟨some a⟩)
      | .ok result => (.ok (some result), ⟨some a⟩)
  | some _ => (.ok none, st)

/-- Python `str(x)` applied to the value returned by `OrchestratorAgent.query`
at the entrypoint: `str` of a real string is itself, `str(None)` is
`"None"`. -/
def pyStrOfOption : Option String → String
  | some s => s
  | none => "None"

/-- A request payload as seen by the entrypoint: only the `prompt` field
matters (`payload.get("prompt", "")`); `none` models a payload without the
field. -/
structure Payload where
  prompt : Option String

/-- `agent_invocation` (src/app.py lines 49-97).  The whole body sits in a
`try:` whose `except Exception as e:` returns `f"Error: {str(e)}"`.  Inside
the `try`:

* `user_input = payload.get("prompt", "")`;
* `if not user_input:` (true for the empty string only) returns the fixed
  error text before the orchestrator is even constructed;
* otherwise a fresh `OrchestratorAgent` is built and `query` is called on it
  (a first call on a fresh instance), and `str(response)` is returned.

The decision session is the `mkSession` parameter; because the function is
parametric in it, any result independent of `mkSession` was produced without
consulting the session (hence without invoking any handler). -/
def agent_invocation (mkSession : Session) (payload : Payload) : String :=
  let user_input := payload.prompt.getD ""
  if !pyTruthy user_input then "Error: No prompt provided in payload"
  else
    match (OrchestratorAgent.query mkSession ⟨none⟩ user_input).1 with
    | .ok r => pyStrOfOption r
    | .error e => "Error: " ++ e

/-- `coordinate_analysis` (src/agents/orchestrator.py lines 126-151), the
combined/batch routing tool.  The three handler `query` methods are the
function parameters `jiraQ`, `meetQ`, `emailQ`; the result is the aggregated
text together with the list of handlers invoked, in invocation order.  Each
guard is the Python `if q and q.strip():`. -/
def coordinate_analysis (jiraQ meetQ emailQ : String → String)
    (inventory_query sales_query market_query : String) :
    String × List Handler :=
  let r1 : List (String × Handler) :=
    if pyTruthy inventory_query && pyTruthy (pyStrip inventory_query) then
      [("[Jira tickets creation]\n" ++ jiraQ inventory_query, Handler.jira)]
    else []
  let r2 : List (String × Handler) :=
    if pyTruthy sales_query && pyTruthy (pyStrip sales_query) then
      [("[Set up follow up meeting]\n" ++ meetQ sales_query, Handler.meetings)]
    else []
  let r3 : List (String × Handler) :=
    if pyTruthy market_query && pyTruthy (pyStrip market_query) then
      [("[Send Emailss]\n" ++ emailQ market_query, Handler.email)]
    else []
  let results := r1 ++ r2 ++ r3
  if results.isEmpty then
    ("No analysis was requested. Please specify at least one query.", [])
  else
    (String.intercalate "\n\n" (results.map Prod.fst), results.map Prod.snd)

/-- The notification result dictionary shape of `send_sns_email`
(src/agents/email_agent.py): `{status, message}`. -/
structure SnsResult where
  status : String
  message : String

/-- The hardcoded notification channel address in `send_sns_email`. -/
def SNS_TOPIC_ARN : String := "arn:aws:sns:us-west-2:905418322763:test"

/-- `send_sns_email` (src/agents/email_agent.py lines 36-74).  The external
`sns_client.publish` call is the `publish` parameter (arguments: topic ARN,
message body, subject), returning either the `MessageId` of the response
(`.ok`) or a raised exception with its text (`.error`).  The `try/except`
turns both outcomes into a structured `SnsResult`; the handler itself never
raises. -/
def send_sns_email (publish : String → String → String → Except String String)
    (subject message : String) : SnsResult :=
  match publish SNS_TOPIC_ARN message subject with
  | .ok messageId =>
      ⟨"success",
       "Email successfully published to SNS topic \x27test\x27. Message ID: " ++ messageId⟩
  | .error e => ⟨"error", "Failed to publish email to SNS: " ++ e⟩

/-- Decimal digit test on a character (the regex class `\d` over ASCII):
code point between 48 and 57. -/
def isDigitChar (c : Char) : Bool := 48 ≤ c.toNat && c.toNat ≤ 57

/-- The decimal digit character for a single digit value (inputs above nine
do not occur in the renderer, which only passes `n % 10` or values below
ten). -/
def digitChar10 : Nat → Char
  | 0 => '0' | 1 => '1' | 2 => '2' | 3 => '3' | 4 => '4'
  | 5 => '5' | 6 => '6' | 7 => '7' | 8 => '8' | _ => '9'

/-- Fuel-driven decimal rendering of a natural number (most significant digit
first); with fuel above `n` this is the standard decimal numeral. -/
def natDigits : Nat → Nat → List Char
  | 0, _ => []
  | fuel + 1, n =>
      if n < 10 then [digitChar10 n]
      else natDigits fuel (n / 10) ++ [digitChar10 (n % 10)]

/-- The decimal numeral of a natural number, as produced by Python string
formatting of a non-negative `int`. -/
def natToDec (n : Nat) : String := ⟨natDigits (n + 1) n⟩

/-- The regular expression of the claim, `^(DEV|OPS|TEST|PROD|SEC)-\d{3}$`,
as an executable matcher: the string is one of the five project vocabulary
words, a hyphen, and exactly three digit characters. -/
def matchesTicketKey (s : String) : Bool :=
  (["DEV", "OPS", "TEST", "PROD", "SEC"] : List String).any fun p =>
    (p ++ "-").data.isPrefixOf s.data &&
    ((s.data.drop (p ++ "-").data.length).length == 3 &&
     (s.data.drop (p ++ "-").data.length).all isDigitChar)

/-- The random draws consumed by one `create_jira_ticket` call, one field per
`random.randint` / `random.choice` in the source; `valid` records exactly the
ranges those generators guarantee. -/
structure RandomDraws where
  issueId : Nat
  projectKey : String
  issueNumber : Nat
  statusName : String
  priorityName : String
  creatorName : String

def RandomDraws.valid (d : RandomDraws) : Prop :=
  30000 ≤ d.issueId ∧ d.issueId ≤ 99999 ∧
  d.projectKey ∈ (["DEV", "OPS", "TEST", "PROD", "SEC"] : List String) ∧
  100 ≤ d.issueNumber ∧ d.issueNumber ≤ 999 ∧
  d.statusName ∈ (["To Do", "In Progress", "Done"] : List String) ∧
  d.priorityName ∈ (["Low", "Medium", "High"] : List String) ∧
  d.creatorName ∈ (["System Agent", "Automation Bot"] : List String)

/-- The nested `{name}` dictionaries of the mock Jira response. -/
structure NameField where
  name : String

structure CreatorField where
  displayName : String
  active : Bool

structure JiraFields where
  summary : String
  description : String
  status : NameField
  priority : NameField
  creator : CreatorField

/-- The mock Jira response shape of `create_jira_ticket`:
`{id, key, self, fields}`. -/
structure JiraResponse where
  id : String
  key : String
  self : String
  fields : JiraFields

/-- `create_jira_ticket` (src/agents/jira_agent.py lines 33-67).  The random
draws are made explicit as the `d` parameter; everything else is the
deterministic assembly performed by the source: `ticket_key` is
`f"{project_key}-{issue_number}"`, the record copies the inputs verbatim and
places the drawn status/priority/creator names.  The function is total: it
has no failure mode and always returns a populated record.  The log lines
printed before returning (showing the workspace identifier, summary and
description) do not affect the result and are elided, which leaves the
workspace identifier parameter unused here. -/
def create_jira_ticket (d : RandomDraws) (summary description _tenant_id : String) :
    JiraResponse :=
  let issue_id := natToDec d.issueId
  let ticket_key := d.projectKey ++ "-" ++ natToDec d.issueNumber
  let base_url := "http://localhost:8080/rest/api/2/issue"
  let self_url := base_url ++ "/" ++ issue_id
  ⟨issue_id, ticket_key, self_url,
   ⟨summary, description, ⟨d.statusName⟩, ⟨d.priorityName⟩, ⟨d.creatorName, true⟩⟩⟩

/-- Civil date from a day count (days since 1970-01-01, proleptic Gregorian):
the standard era-based conversion, using floor division throughout.  Returns
(year, month, day). -/
def civilFromDays (z0 : Int) : Int × Nat × Nat :=
  let z := z0 + 719468
  let doe := z % 146097
  let era := z / 146097
  let yoe := (doe - doe / 1460 + doe / 36524 - doe / 146096) / 365
  let y := yoe + era * 400
  let doy := doe - (365 * yoe + yoe / 4 - yoe / 100)
  let mp := (5 * doy + 2) / 153
  let d := doy - (153 * mp + 2) / 5 + 1
  let m := if mp < 10 then mp + 3 else mp - 9
  (if m ≤ 2 then y + 1 else y, m.toNat, d.toNat)

/-- Day count (days since 1970-01-01) of a proleptic Gregorian civil date. -/
def daysFromCivil (y : Int) (m d : Nat) : Int :=
  let y2 := if m ≤ 2 then y - 1 else y
  let era := y2 / 400
  let yoe := y2 - era * 400
  let mp : Int := ((m : Int) + 9) % 12
  let doy := (153 * mp + 2) / 5 + d - 1
  let doe := yoe * 365 + yoe / 4 - yoe / 100 + doy
  era * 146097 + doe - 719468

/-- A Python `datetime` value at minute resolution (the scheduling handler
never sets seconds): civil fields year, month, day, hour, minute. -/
structure PyDateTime where
  year : Int
  month : Nat
  day : Nat
  hour : Nat
  minute : Nat
deriving DecidableEq

/-- The linear time of a `PyDateTime`, in minutes since 1970-01-01T00:00. -/
def toMinutes (dt : PyDateTime) : Int :=
  daysFromCivil dt.year dt.month dt.day * 1440 + dt.hour * 60 + dt.minute

/-- The `PyDateTime` at a linear minute count. -/
def ofMinutes (t : Int) : PyDateTime :=
  let z := t / 1440
  let r := (t % 1440).toNat
  let c := civilFromDays z
  ⟨c.1, c.2.1, c.2.2, r / 60, r % 60⟩

/-- Python `datetime + timedelta(minutes=k)` (for any integer `k`, negative
included): shift the instant by `k` minutes on the proleptic Gregorian
calendar. -/
def addMinutes (dt : PyDateTime) (k : Int) : PyDateTime :=
  ofMinutes (toMinutes dt + k)

/-- Zero padding to width `w`, as done by `strftime` numeric directives. -/
def padZ (w n : Nat) : List Char :=
  List.replicate (w - (natToDec n).data.length) '0' ++ (natToDec n).data

/-- `strftime("%Y%m%dT%H%M%S")` on a minute-resolution datetime value
(`%S` always renders 00).  Negative years do not occur on the range guarded
by `create_meeting_ics`; the renderer clamps them through `Int.toNat`. -/
def fmtStamp (dt : PyDateTime) : String :=
  ⟨padZ 4 dt.year.toNat ++ padZ 2 dt.month ++ padZ 2 dt.day ++
   'T' :: (padZ 2 dt.hour ++ padZ 2 dt.minute ++ padZ 2 0)⟩

/-- The textual pattern `YYYYMMDDTHHMMSS`: eight digits, a literal T, six
digits. -/
def stampPattern (s : String) : Bool :=
  s.data.length == 15 && (s.data.take 8).all isDigitChar &&
  (s.data.drop 8).take 1 == ['T'] && (s.data.drop 9).all isDigitChar

/-- Numeric value of a digit character. -/
def digitVal (c : Char) : Nat := c.toNat - 48

/-- Exactly four digit characters (the `%Y` directive of `strptime`), with
the remaining input. -/
def take4Digits : List Char → Option (Nat × List Char)
  | a :: b :: c :: d :: rest =>
      if isDigitChar a && isDigitChar b && isDigitChar c && isDigitChar d then
        some (1000 * digitVal a + 100 * digitVal b + 10 * digitVal c + digitVal d, rest)
      else none
  | _ => none

/-- One or two digit characters, greedily (the `%m`/`%d`/`%H`/`%M`
directives of `strptime`), with the remaining input. -/
def take12Digits : List Char → Option (Nat × List Char)
  | [] => none
  | [a] => if isDigitChar a then some (digitVal a, []) else none
  | a :: b :: rest =>
      if isDigitChar a then
        if isDigitChar b then some (10 * digitVal a + digitVal b, rest)
        else some (digitVal a, b :: rest)
      else none

/-- A literal character of the format string. -/
def expectChar (c : Char) : List Char → Option (List Char)
  | [] => none
  | x :: rest => if x == c then some rest else none

/-- One or more whitespace characters (whitespace in a `strptime` format
matches `\s+`). -/
def skipSpaces1 : List Char → Option (List Char)
  | [] => none
  | x :: rest => if pyIsSpace x then some (rest.dropWhile pyIsSpace) else none

/-- Gregorian leap year test. -/
def isLeap (y : Int) : Bool :=
  (y % 4 == 0 && y % 100 != 0) || y % 400 == 0

/-- Days in a month of a given year. -/
def daysInMonth (y : Int) (m : Nat) : Nat :=
  if m == 2 then (if isLeap y then 29 else 28)
  else if m == 4 || m == 6 || m == 9 || m == 11 then 30
  else 31

/-- `datetime.strptime(text, "%Y-%m-%d %H:%M")`: four year digits, hyphen,
one-or-two-digit month, hyphen, one-or-two-digit day, whitespace,
one-or-two-digit hour, colon, one-or-two-digit minute, end of input; then the
range validation that `datetime` construction performs (month 1..12, day
within the month, hour below 24, minute below 60, year at least `MINYEAR`,
which is 1).  `none` models the raised `ValueError`. -/
def strptimeYmdHM (cs : List Char) : Option PyDateTime :=
  match take4Digits cs with
  | none => none
  | some (y, cs1) =>
    match expectChar '-' cs1 with
    | none => none
    | some cs2 =>
      match take12Digits cs2 with
      | none => none
      | some (mo, cs3) =>
        match expectChar '-' cs3 with
        | none => none
        | some cs4 =>
          match take12Digits cs4 with
          | none => none
          | some (d, cs5) =>
            match skipSpaces1 cs5 with
            | none => none
            | some cs6 =>
              match take12Digits cs6 with
              | none => none
              | some (h, cs7) =>
                match expectChar ':' cs7 with
                | none => none
                | some cs8 =>
                  match take12Digits cs8 with
                  | none => none
                  | some (mi, cs9) =>
                    if cs9.isEmpty ∧ 1 ≤ y ∧ 1 ≤ mo ∧ mo ≤ 12 ∧ 1 ≤ d ∧
                       d ≤ daysInMonth (y : Int) mo ∧ h ≤ 23 ∧ mi ≤ 59 then
                      some ⟨(y : Int), mo, d, h, mi⟩
                    else none

/-- The attendee block of the event: `"".join([f"ATTENDEE;CN={p}" for p in
participants])` — the entries are joined with the *empty* separator. -/
def attendeeBlob (ps : List String) : String :=
  String.join (ps.map fun p => "ATTENDEE;CN=" ++ p)

/-- The `ics_content` f-string of `create_meeting_ics`
(src/agents/meetings_agent.py lines 59-77), byte for byte: the triple-quoted
literal keeps the eight-space indentation of every continuation line and ends
with a newline and eight spaces before the closing quotes. -/
def icsContent (dtstamp dtstart dtend title description location : String)
    (ps : List String) : String :=
  "BEGIN:VCALENDAR\n        VERSION:2.0\n        PRODID:-//Strands Tool//Meeting Scheduler//EN\n        BEGIN:VEVENT\n        UID:" ++
  dtstamp ++ "-strands@tool\n        DTSTAMP:" ++ dtstamp ++ "\n        DTSTART:" ++ dtstart ++
  "\n        DTEND:" ++ dtend ++ "\n        SUMMARY:" ++ title ++ "\n        DESCRIPTION:" ++
  description ++ "\n        LOCATION:" ++ location ++ "\n        " ++ attendeeBlob ps ++
  "\n        END:VEVENT\n        END:VCALENDAR\n        "

/-- The characters of the ICS document from the DTSTART line on (everything
independent of the generation timestamp, given the arguments). -/
def icsTailData (dtstart dtend title description location : String)
    (ps : List String) : List Char :=
  ("        DTSTART:" ++ dtstart ++ "\n        DTEND:" ++ dtend ++ "\n        SUMMARY:" ++
   title ++ "\n        DESCRIPTION:" ++ description ++ "\n        LOCATION:" ++ location ++
   "\n        " ++ attendeeBlob ps ++ "\n        END:VEVENT\n        END:VCALENDAR\n        ").data

/-- The characters of the ICS document before the UID line. -/
def icsHeadData : List Char :=
  "BEGIN:VCALENDAR\n        VERSION:2.0\n        PRODID:-//Strands Tool//Meeting Scheduler//EN\n        BEGIN:VEVENT".data

/-- Split a character list at newline characters (the semantics of splitting
text into lines; the result has one more entry than the text has
newlines). -/
def splitLinesAux : List Char → List Char → List (List Char)
  | [], acc => [acc.reverse]
  | c :: cs, acc =>
      if c = '\n' then acc.reverse :: splitLinesAux cs []
      else splitLinesAux cs (c :: acc)

def splitLines (cs : List Char) : List (List Char) := splitLinesAux cs []

/-- A line whose content (after the indentation spaces) starts with `UID:` or
`DTSTAMP:` — the two generation-time-derived fields of the document. -/
def lineIsGen (l : List Char) : Bool :=
  (['U', 'I', 'D', ':'] : List Char).isPrefixOf (l.dropWhile (fun c => c == ' ')) ||
  (['D', 'T', 'S', 'T', 'A', 'M', 'P', ':'] : List Char).isPrefixOf
    (l.dropWhile (fun c => c == ' '))

/-- The lines of a text with the generation-time-derived lines blanked out:
two texts with equal `maskGenLines` agree on every line except possibly the
`UID:`/`DTSTAMP:` lines. -/
def maskGenLines (cs : List Char) : List (List Char) :=
  (splitLines cs).map fun l => if lineIsGen l then [] else l

/-- Number of (possibly overlapping) occurrences of `pat` in a character
list. -/
def countSub (pat : List Char) : List Char → Nat
  | [] => if pat.isPrefixOf [] then 1 else 0
  | c :: cs => (if pat.isPrefixOf (c :: cs) then 1 else 0) + countSub pat cs

/-- Substring containment, via `countSub`. -/
def containsSub (pat cs : List Char) : Bool := countSub pat cs != 0

/-- The failure modes of `create_meeting_ics`: `invalidInput` models the
`ValueError` of `strptime` on an unparseable date/time (the
`InvalidInputError` of the spec taxonomy); `overflow` models the
`OverflowError` that `datetime + timedelta` raises when the result leaves the
representable year range 1..9999. -/
inductive MeetingError
  | invalidInput
  | overflow
deriving DecidableEq

/-- `create_meeting_ics` (src/agents/meetings_agent.py lines 35-78):

* `start_dt = datetime.strptime(f"{date} {time}", "%Y-%m-%d %H:%M")` — an
  unparseable input raises (`.error .invalidInput`);
* `end_dt = start_dt + timedelta(minutes=duration_minutes)` — no sign check
  on the duration; only the representable-range limit of `datetime` applies
  (`.error .overflow`);
* the three `strftime("%Y%m%dT%H%M%S")` stamps, with `dtstamp` taken from
  `datetime.utcnow()` — the `now` parameter;
* the f-string document, assembled by `icsContent`.

The file write is commented out in the source; the function returns the
text. -/
def create_meeting_ics (title date time : String) (duration_minutes : Int)
    (participants : List String) (location description : String)
    (now : PyDateTime) : Except MeetingError String :=
  match strptimeYmdHM (date ++ " " ++ time).data with
  | none => .error .invalidInput
  | some start_dt =>
    let end_dt := addMinutes start_dt duration_minutes
    if end_dt.year < 1 ∨ 9999 < end_dt.year then .error .overflow
    else
      .ok (icsContent (fmtStamp now) (fmtStamp start_dt) (fmtStamp end_dt)
        title description location participants)

/-- `pyStrip` of the empty string is empty. -/
theorem pyStrip_empty : pyStrip "" = "" := rfl

/-- The guard `if q and q.strip():` holds exactly when the stripped query is
non-empty. -/
theorem guard_iff_strip_nonempty (q : String) :
    (pyTruthy q && pyTruthy (pyStrip q)) = (pyStrip q != "") := by
  by_cases hq : q = ""
  · subst hq; rfl
  · have h1 : pyTruthy q = true := by
      simp [pyTruthy, hq]
    rw [h1, Bool.true_and]
    rfl

/-- C1: the claim says every `query` call (second and later ones included)
returns the textual result of the decision-making session, the session being
created lazily on the first call and reused afterwards.  The code disagrees:
the session invocation and the `return` statement are indented inside the
`if not self.agent:` block, so the second call on the same instance skips
them and returns Python `None` without consulting the session.  This theorem
evaluates the code at the failing input: with a session that answers
`"routed answer"` to everything, the first call returns that text and stores
the session, while the second call returns `None`. -/
theorem orchestrator_query_second_call_returns_none :
    (OrchestratorAgent.query ⟨fun _ => .ok "routed answer"⟩ ⟨none⟩ "plan sprint 8" =
      (.ok (some "routed answer"), ⟨some ⟨fun _ => .ok "routed answer"⟩⟩)) ∧
    (OrchestratorAgent.query ⟨fun _ => .ok "routed answer"⟩
        ⟨some ⟨fun _ => .ok "routed answer"⟩⟩ "plan sprint 9" =
      (.ok none, ⟨some ⟨fun _ => .ok "routed answer"⟩⟩)) :=
  ⟨rfl, rfl⟩

/-- C2 counterexample: a whitespace-only transcript is *not* rejected.  The
entrypoint guard is `if not user_input:`, and a string holding a single space
is truthy in Python, so the request is forwarded to the coordinator: with a
session answering `"coordinator answer"`, the call returns that answer rather
than the input-validation error. -/
theorem whitespace_prompt_reaches_coordinator :
    agent_invocation ⟨fun _ => .ok "coordinator answer"⟩ ⟨some " "⟩ = "coordinator answer" ∧
    agent_invocation ⟨fun _ => .ok "coordinator answer"⟩ ⟨some " "⟩ ≠
      "Error: No prompt provided in payload" := by
  refine ⟨rfl, ?_⟩
  decide

/-- C2 amended: for a *missing or empty* transcript the entrypoint returns
the fixed input-error text, whatever the decision session would do — the
result is independent of `mkSession`, so neither the session nor any handler
is consulted (zero side effects); whitespace-only transcripts are forwarded
instead of rejected. -/
theorem empty_prompt_rejected_before_any_handler (mkSession : Session)
    (payload : Payload) (h : payload.prompt = none ∨ payload.prompt = some "") :
    agent_invocation mkSession payload = "Error: No prompt provided in payload" := by
  rcases h with h | h <;> simp [agent_invocation, h, pyTruthy]

/-- Witness for the C2 amended theorem: a payload with no `prompt` field. -/
theorem empty_prompt_rejected_witness :
    agent_invocation ⟨fun _ => .ok "unused"⟩ ⟨none⟩ = "Error: No prompt provided in payload" :=
  empty_prompt_rejected_before_any_handler ⟨fun _ => .ok "unused"⟩ ⟨none⟩ (Or.inl rfl)

/-- C3: the combined/batch routing call invokes exactly the handlers whose
sub-query is non-empty after trimming whitespace, in the fixed invocation
order (ticketing, scheduling, notification); it aggregates their labeled
results separated by a blank line; and when all three sub-queries strip to
empty it returns the fixed "nothing requested" text while invoking zero
handlers. -/
theorem coordinate_analysis_spec (jiraQ meetQ emailQ : String → String)
    (inventory_query sales_query market_query : String) :
    (coordinate_analysis jiraQ meetQ emailQ inventory_query sales_query market_query).2 =
      ((if pyStrip inventory_query != "" then [Handler.jira] else []) ++
       (if pyStrip sales_query != "" then [Handler.meetings] else []) ++
       (if pyStrip market_query != "" then [Handler.email] else [])) ∧
    (coordinate_analysis jiraQ meetQ emailQ inventory_query sales_query market_query).1 =
      (if pyStrip inventory_query = "" ∧ pyStrip sales_query = "" ∧ pyStrip market_query = "" then
         "No analysis was requested. Please specify at least one query."
       else
         String.intercalate "\n\n"
           ((if pyStrip inventory_query != "" then
               ["[Jira tickets creation]\n" ++ jiraQ inventory_query] else []) ++
            (if pyStrip sales_query != "" then
               ["[Set up follow up meeting]\n" ++ meetQ sales_query] else []) ++
            (if pyStrip market_query != "" then
               ["[Send Emailss]\n" ++ emailQ market_query] else []))) := by
  unfold coordinate_analysis
  rw [guard_iff_strip_nonempty, guard_iff_strip_nonempty, guard_iff_strip_nonempty]
  by_cases h1 : pyStrip inventory_query = "" <;>
    by_cases h2 : pyStrip sales_query = "" <;>
      by_cases h3 : pyStrip market_query = "" <;>
        simp [h1, h2, h3]

/-- C8: `send_sns_email` never raises outward: for every behaviour of the
publish dependency it returns a structured result — on a raised exception the
result is `{status := "error"}` with a message carrying the failure text, and
on success it is `{status := "success"}` with a message carrying the delivery
identifier. -/
theorem send_sns_email_reports_structured_result
    (publish : String → String → String → Except String String)
    (subject message : String) :
    (∃ e, publish SNS_TOPIC_ARN message subject = .error e ∧
       send_sns_email publish subject message =
         ⟨"error", "Failed to publish email to SNS: " ++ e⟩) ∨
    (∃ mid, publish SNS_TOPIC_ARN message subject = .ok mid ∧
       send_sns_email publish subject message =
         ⟨"success",
          "Email successfully published to SNS topic \x27test\x27. Message ID: " ++ mid⟩) := by
  cases h : publish SNS_TOPIC_ARN message subject with
  | error e => exact Or.inl ⟨e, rfl, by simp [send_sns_email, h]⟩
  | ok mid => exact Or.inr ⟨mid, rfl, by simp [send_sns_email, h]⟩

/-- C9: the invocation entrypoint always returns text, never a raw fault.
For every payload and every behaviour of the decision session, the result is
either the fixed missing-prompt text, or `"Error: <message>"` when the inner
processing raised the exception `<message>`, or the successful textual
response. -/
theorem agent_invocation_never_raises (mkSession : Session) (payload : Payload) :
    (agent_invocation mkSession payload = "Error: No prompt provided in payload") ∨
    (∃ e, mkSession.run (payload.prompt.getD "") = .error e ∧
          agent_invocation mkSession payload = "Error: " ++ e) ∨
    (∃ r, mkSession.run (payload.prompt.getD "") = .ok r ∧
          agent_invocation mkSession payload = r) := by
  by_cases h : pyTruthy (payload.prompt.getD "")
  · cases hr : mkSession.run (payload.prompt.getD "") with
    | error e =>
        refine Or.inr (Or.inl ⟨e, rfl, ?_⟩)
        simp [agent_invocation, h, OrchestratorAgent.query, hr]
    | ok r =>
        refine Or.inr (Or.inr ⟨r, rfl, ?_⟩)
        simp [agent_invocation, h, OrchestratorAgent.query, hr, pyStrOfOption]
  · left
    simp [agent_invocation, h]

theorem digitChar10_digit (d : Nat) : isDigitChar (digitChar10 d) = true := by
  rcases d with _|_|_|_|_|_|_|_|_|_|d <;> rfl

theorem isDigitChar_ne_newline {c : Char} (h : isDigitChar c = true) : c ≠ '\n' := by
  intro he
  subst he
  simp [isDigitChar] at h

theorem natDigits_small (fuel n : Nat) (h : n < 10) (hf : 0 < fuel) :
    natDigits fuel n = [digitChar10 n] := by
  cases fuel with
  | zero => omega
  | succ f => simp [natDigits, h]

theorem natDigits_big (fuel n : Nat) (h : 10 ≤ n) (hf : 0 < fuel) :
    natDigits fuel n = natDigits (fuel - 1) (n / 10) ++ [digitChar10 (n % 10)] := by
  cases fuel with
  | zero => omega
  | succ f => simp [natDigits, Nat.not_lt_of_le h]

theorem natDigits_all_digits (n : Nat) :
    ∀ fuel, n < fuel → (natDigits fuel n).all isDigitChar = true := by
  induction n using Nat.strong_induction_on with
  | _ n ih =>
    intro fuel hf
    by_cases hn : n < 10
    · rw [natDigits_small fuel n hn (by omega)]
      simp [digitChar10_digit]
    · have hd : n / 10 < n := Nat.div_lt_self (by omega) (by omega)
      rw [natDigits_big fuel n (by omega) (by omega)]
      simp [List.all_append, ih (n / 10) hd (fuel - 1) (by omega), digitChar10_digit]

/-- The decimal numeral of a number between 100 and 999 has exactly the three
expected digit characters. -/
theorem natToDec_three_digits (n : Nat) (h1 : 100 ≤ n) (h2 : n ≤ 999) :
    (natToDec n).data =
      [digitChar10 (n / 100), digitChar10 (n / 10 % 10), digitChar10 (n % 10)] := by
  show natDigits (n + 1) n = _
  have e1 : n / 10 / 10 = n / 100 := by omega
  rw [natDigits_big (n + 1) n (by omega) (by omega)]
  have e2 : n + 1 - 1 = n := by omega
  rw [e2, natDigits_big n (n / 10) (by omega) (by omega)]
  have e3 : natDigits (n - 1) (n / 10 / 10) = [digitChar10 (n / 100)] := by
    rw [e1]
    exact natDigits_small (n - 1) (n / 100) (by omega) (by omega)
  rw [e3]
  rfl

theorem isPrefixOf_append_self (l t : List Char) : l.isPrefixOf (l ++ t) = true := by
  induction l with
  | nil => simp [List.isPrefixOf]
  | cons a as ih => simp [List.isPrefixOf, ih]

theorem key_matches (p : String)
    (hp : p ∈ (["DEV", "OPS", "TEST", "PROD", "SEC"] : List String))
    (n : Nat) (h1 : 100 ≤ n) (h2 : n ≤ 999) :
    matchesTicketKey (p ++ "-" ++ natToDec n) = true := by
  unfold matchesTicketKey
  rw [List.any_eq_true]
  refine ⟨p, hp, ?_⟩
  have hd : (p ++ "-" ++ natToDec n).data = (p ++ "-").data ++ (natToDec n).data := by
    simp [String.data_append]
  rw [hd, List.drop_left]
  simp [isPrefixOf_append_self, natToDec_three_digits n h1 h2, digitChar10_digit]

/-- C4: for every pair of input strings (and any workspace identifier), and
every random draw within the ranges the generators produce,
`create_jira_ticket` returns a populated record whose key matches
`^(DEV|OPS|TEST|PROD|SEC)-\d{3}$`, whose status name is one of
{To Do, In Progress, Done}, whose priority name is one of {Low, Medium, High},
and whose creator display name comes from the fixed two-name vocabulary
{System Agent, Automation Bot}. -/
theorem create_jira_ticket_spec (d : RandomDraws) (hd : d.valid)
    (summary description tenant_id : String) :
    matchesTicketKey (create_jira_ticket d summary description tenant_id).key = true ∧
    (create_jira_ticket d summary description tenant_id).fields.status.name ∈
      (["To Do", "In Progress", "Done"] : List String) ∧
    (create_jira_ticket d summary description tenant_id).fields.priority.name ∈
      (["Low", "Medium", "High"] : List String) ∧
    (create_jira_ticket d summary description tenant_id).fields.creator.displayName ∈
      (["System Agent", "Automation Bot"] : List String) := by
  obtain ⟨h1, h2, h3, h4, h5, h6, h7, h8⟩ := hd
  exact ⟨key_matches d.projectKey h3 d.issueNumber h4 h5, h6, h7, h8⟩

/-- Witness for C4 at a concrete draw and the example inputs of the spec. -/
theorem create_jira_ticket_spec_witness :
    RandomDraws.valid ⟨54321, "DEV", 123, "To Do", "High", "Automation Bot"⟩ ∧
    (matchesTicketKey (create_jira_ticket
        ⟨54321, "DEV", 123, "To Do", "High", "Automation Bot"⟩
        "Fix login bug" "desc" "default").key = true ∧
     (create_jira_ticket ⟨54321, "DEV", 123, "To Do", "High", "Automation Bot"⟩
        "Fix login bug" "desc" "default").fields.status.name ∈
       (["To Do", "In Progress", "Done"] : List String) ∧
     (create_jira_ticket ⟨54321, "DEV", 123, "To Do", "High", "Automation Bot"⟩
        "Fix login bug" "desc" "default").fields.priority.name ∈
       (["Low", "Medium", "High"] : List String) ∧
     (create_jira_ticket ⟨54321, "DEV", 123, "To Do", "High", "Automation Bot"⟩
        "Fix login bug" "desc" "default").fields.creator.displayName ∈
       (["System Agent", "Automation Bot"] : List String)) :=
  ⟨by unfold RandomDraws.valid; decide,
   create_jira_ticket_spec ⟨54321, "DEV", 123, "To Do", "High", "Automation Bot"⟩
     (by unfold RandomDraws.valid; decide)
     "Fix login bug" "desc" "default"⟩

theorem ediv_facts (a b : Int) (hb : 0 < b) :
    b * (a / b) ≤ a ∧ a < b * (a / b) + b := by
  have h1 := Int.ediv_add_emod a b
  have h2 := Int.emod_nonneg a (by omega : b ≠ 0)
  have h3 := Int.emod_lt_of_pos a hb
  constructor <;> linarith

/-- The month and day fields produced by the civil conversion are rendered by
at most two digits, whatever the day count. -/
theorem civilFromDays_le (z0 : Int) :
    (civilFromDays z0).2.1 ≤ 99 ∧ (civilFromDays z0).2.2 ≤ 99 := by
  unfold civilFromDays
  dsimp only
  have hdoe1 : 0 ≤ (z0 + 719468) % 146097 := Int.emod_nonneg _ (by omega)
  have hdoe2 : (z0 + 719468) % 146097 < 146097 := Int.emod_lt_of_pos _ (by omega)
  set doe := (z0 + 719468) % 146097 with hdoe
  have ha1 := ediv_facts doe 1460 (by omega)
  have ha2 := ediv_facts doe 36524 (by omega)
  have ha3 := ediv_facts doe 146096 (by omega)
  set a1 := doe / 1460
  set a2 := doe / 36524
  set a3 := doe / 146096
  have hy := ediv_facts (doe - a1 + a2 - a3) 365 (by omega)
  set yoe := (doe - a1 + a2 - a3) / 365
  have hb1 := ediv_facts yoe 4 (by omega)
  have hb2 := ediv_facts yoe 100 (by omega)
  set b1 := yoe / 4
  set b2 := yoe / 100
  set doy := doe - (365 * yoe + b1 - b2) with hdoy
  have hmp := ediv_facts (5 * doy + 2) 153 (by omega)
  set mp := (5 * doy + 2) / 153
  have hd5 := ediv_facts (153 * mp + 2) 5 (by omega)
  set d5 := (153 * mp + 2) / 5
  constructor
  · split <;> omega
  · omega

/-- Field bounds of `ofMinutes`: hour and minute are within a day, month and
day within two rendered digits. -/
theorem ofMinutes_bounds (t : Int) :
    (ofMinutes t).month ≤ 99 ∧ (ofMinutes t).day ≤ 99 ∧
    (ofMinutes t).hour ≤ 23 ∧ (ofMinutes t).minute ≤ 59 := by
  unfold ofMinutes
  dsimp only
  have hc := civilFromDays_le (t / 1440)
  have h1 : 0 ≤ t % 1440 := Int.emod_nonneg _ (by omega)
  have h2 : t % 1440 < 1440 := Int.emod_lt_of_pos _ (by omega)
  exact ⟨hc.1, hc.2, by omega, by omega⟩

theorem digitVal_le9 {c : Char} (h : isDigitChar c = true) : digitVal c ≤ 9 := by
  simp [isDigitChar] at h
  simp [digitVal]
  omega

theorem take4Digits_le {cs rest : List Char} {n : Nat}
    (h : take4Digits cs = some (n, rest)) : n ≤ 9999 := by
  match cs with
  | [] => simp [take4Digits] at h
  | [a] => simp [take4Digits] at h
  | [a, b] => simp [take4Digits] at h
  | [a, b, c] => simp [take4Digits] at h
  | a :: b :: c :: d :: r =>
    simp only [take4Digits, Bool.and_eq_true, Option.ite_none_right_eq_some,
      Option.some.injEq, Prod.mk.injEq] at h
    obtain ⟨⟨⟨⟨ha, hb⟩, hc⟩, hd⟩, hn, -⟩ := h
    have := digitVal_le9 ha
    have := digitVal_le9 hb
    have := digitVal_le9 hc
    have := digitVal_le9 hd
    omega

theorem daysInMonth_le31 (y : Int) (m : Nat) : daysInMonth y m ≤ 31 := by
  unfold daysInMonth
  split
  · split <;> omega
  · split <;> omega

/-- Postcondition of the date/time parser: a successful parse produces fields
inside the ranges that `datetime` guarantees. -/
theorem strptime_bounds {cs : List Char} {dt : PyDateTime}
    (h : strptimeYmdHM cs = some dt) :
    1 ≤ dt.year ∧ dt.year ≤ 9999 ∧ 1 ≤ dt.month ∧ dt.month ≤ 12 ∧
    1 ≤ dt.day ∧ dt.day ≤ 31 ∧ dt.hour ≤ 23 ∧ dt.minute ≤ 59 := by
  unfold strptimeYmdHM at h
  split at h <;> try simp at h
  rename_i y cs1 h4
  split at h <;> try simp at h
  split at h <;> try simp at h
  rename_i mo cs3 _
  split at h <;> try simp at h
  split at h <;> try simp at h
  rename_i d cs5 _
  split at h <;> try simp at h
  split at h <;> try simp at h
  rename_i hh cs7 _
  split at h <;> try simp at h
  split at h <;> try simp at h
  rename_i mi cs9 _
  obtain ⟨⟨hc0, hy, hmo1, hmo2, hd1, hd2, hho, hmi⟩, hdt⟩ := h
  subst hdt
  have hy4 := take4Digits_le h4
  have hd31 := daysInMonth_le31 (y : Int) mo
  dsimp only
  refine ⟨by exact_mod_cast hy, by exact_mod_cast hy4, hmo1, hmo2, hd1, by omega, hho, hmi⟩

theorem natDigits_len_le (k : Nat) : ∀ n fuel, n < 10 ^ k → n < fuel → 0 < k →
    (natDigits fuel n).length ≤ k := by
  induction k with
  | zero => intro n fuel h1 h2 h3; omega
  | succ k ih =>
    intro n fuel h1 h2 _
    by_cases hn : n < 10
    · rw [natDigits_small fuel n hn (by omega)]
      simp
    · rcases Nat.eq_zero_or_pos k with h0 | hk
      · subst h0
        simp at h1
        omega
      · rw [natDigits_big fuel n (by omega) (by omega)]
        have hd : n / 10 < n := Nat.div_lt_self (by omega) (by omega)
        have h10 : n / 10 < 10 ^ k := by
          rw [Nat.div_lt_iff_lt_mul (by omega : 0 < 10)]
          calc n < 10 ^ (k + 1) := h1
          _ = 10 ^ k * 10 := by rw [pow_succ]
        have := ih (n / 10) (fuel - 1) h10 (by omega) hk
        simp only [List.length_append, List.length_cons, List.length_nil]
        omega

theorem padZ_length (w n : Nat) (h : n < 10 ^ w) (hw : 0 < w) :
    (padZ w n).length = w := by
  have hle : (natDigits (n + 1) n).length ≤ w := natDigits_len_le w n (n + 1) h (by omega) hw
  show (List.replicate (w - (natDigits (n + 1) n).length) '0' ++ natDigits (n + 1) n).length = w
  simp only [List.length_append, List.length_replicate]
  omega

theorem padZ_all_digits (w n : Nat) : (padZ w n).all isDigitChar = true := by
  show (List.replicate (w - (natDigits (n + 1) n).length) '0' ++ natDigits (n + 1) n).all _ = true
  rw [List.all_append]
  have h1 : (List.replicate (w - (natDigits (n + 1) n).length) '0').all isDigitChar = true := by
    simp [List.all_eq_true, List.mem_replicate]
    exact Or.inr rfl
  rw [h1, natDigits_all_digits n (n + 1) (by omega)]
  rfl

theorem stampPattern_of_shape (L1 L2 : List Char) (h1 : L1.length = 8)
    (h2 : L2.length = 6) (a1 : L1.all isDigitChar = true)
    (a2 : L2.all isDigitChar = true) :
    stampPattern ⟨L1 ++ 'T' :: L2⟩ = true := by
  have hT : L1 ++ 'T' :: L2 = (L1 ++ ['T']) ++ L2 := by simp
  unfold stampPattern
  dsimp only
  have e1 : (L1 ++ 'T' :: L2).take 8 = L1 := List.take_left' h1
  have e2 : (L1 ++ 'T' :: L2).drop 8 = 'T' :: L2 := List.drop_left' h1
  have e3 : (L1 ++ 'T' :: L2).drop 9 = L2 := by
    rw [hT]
    exact List.drop_left' (by simp [h1])
  rw [e1, e2, e3]
  simp [h1, h2, a1, a2]

/-- A datetime whose fields fit the rendered widths is stamped in the
`YYYYMMDDTHHMMSS` pattern. -/
theorem stampPattern_fmtStamp (dt : PyDateTime) (hy : dt.year ≤ 9999)
    (hm : dt.month ≤ 99) (hd : dt.day ≤ 99) (hh : dt.hour ≤ 99)
    (hmi : dt.minute ≤ 99) : stampPattern (fmtStamp dt) = true := by
  have hyn : dt.year.toNat < 10 ^ 4 := by
    have h0 : (10 : Nat) ^ 4 = 10000 := by norm_num
    omega
  have hmn : dt.month < 10 ^ 2 := by norm_num; omega
  have hdn : dt.day < 10 ^ 2 := by norm_num; omega
  have hhn : dt.hour < 10 ^ 2 := by norm_num; omega
  have hmin : dt.minute < 10 ^ 2 := by norm_num; omega
  have h0n : (0 : Nat) < 10 ^ 2 := by norm_num
  have := stampPattern_of_shape
    (padZ 4 dt.year.toNat ++ padZ 2 dt.month ++ padZ 2 dt.day)
    (padZ 2 dt.hour ++ padZ 2 dt.minute ++ padZ 2 0)
    (by simp only [List.length_append]
        rw [padZ_length 4 _ hyn (by omega), padZ_length 2 _ hmn (by omega),
          padZ_length 2 _ hdn (by omega)])
    (by simp only [List.length_append]
        rw [padZ_length 2 _ hhn (by omega), padZ_length 2 _ hmin (by omega),
          padZ_length 2 _ h0n (by omega)])
    (by simp [List.all_append, padZ_all_digits])
    (by simp [List.all_append, padZ_all_digits])
  simpa [fmtStamp] using this

theorem not_mem_of_all_digits {l : List Char} (h : l.all isDigitChar = true) :
    '\n' ∉ l := by
  intro hm
  have h2 := List.all_eq_true.mp h '\n' hm
  exact absurd h2 (by decide)

theorem fmtStamp_no_newline (dt : PyDateTime) : '\n' ∉ (fmtStamp dt).data := by
  intro hm
  have hp4 := not_mem_of_all_digits (padZ_all_digits 4 dt.year.toNat)
  have hpm := not_mem_of_all_digits (padZ_all_digits 2 dt.month)
  have hpd := not_mem_of_all_digits (padZ_all_digits 2 dt.day)
  have hph := not_mem_of_all_digits (padZ_all_digits 2 dt.hour)
  have hpmin := not_mem_of_all_digits (padZ_all_digits 2 dt.minute)
  have hps := not_mem_of_all_digits (padZ_all_digits 2 0)
  simp [fmtStamp, hp4, hpm, hpd, hph, hpmin, hps] at hm

theorem splitLinesAux_newline (xs : List Char) :
    ∀ (acc ys : List Char),
      splitLinesAux (xs ++ '\n' :: ys) acc =
        splitLinesAux xs acc ++ splitLinesAux ys [] := by
  induction xs with
  | nil => intro acc ys; simp [splitLinesAux]
  | cons c cs ih =>
      intro acc ys
      by_cases hc : c = '\n'
      · subst hc
        simp [splitLinesAux, ih]
      · simp [splitLinesAux, hc, ih]

theorem splitLinesAux_no_newline (xs : List Char) (h : '\n' ∉ xs) :
    ∀ acc, splitLinesAux xs acc = [acc.reverse ++ xs] := by
  induction xs with
  | nil => intro acc; simp [splitLinesAux]
  | cons c cs ih =>
      intro acc
      have hc : ¬(c = '\n') := fun he => h (he ▸ List.mem_cons_self c cs)
      have hcs : '\n' ∉ cs := fun hm => h (List.mem_cons_of_mem c hm)
      simp [splitLinesAux, hc, ih hcs]

theorem splitLines_newline (xs ys : List Char) :
    splitLines (xs ++ '\n' :: ys) = splitLines xs ++ splitLines ys :=
  splitLinesAux_newline xs [] ys

theorem splitLines_no_newline (xs : List Char) (h : '\n' ∉ xs) :
    splitLines xs = [xs] := by
  have := splitLinesAux_no_newline xs h []
  simpa [splitLines] using this

theorem lineIsGen_uid (r : List Char) :
    lineIsGen (' ' :: ' ' :: ' ' :: ' ' :: ' ' :: ' ' :: ' ' :: ' ' :: 'U' :: 'I' :: 'D' :: ':' :: r) = true := by
  unfold lineIsGen
  simp [List.dropWhile, List.isPrefixOf]

theorem lineIsGen_dtstamp (r : List Char) :
    lineIsGen (' ' :: ' ' :: ' ' :: ' ' :: ' ' :: ' ' :: ' ' :: ' ' ::
      'D' :: 'T' :: 'S' :: 'T' :: 'A' :: 'M' :: 'P' :: ':' :: r) = true := by
  unfold lineIsGen
  simp [List.dropWhile, List.isPrefixOf]

set_option maxRecDepth 8192 in
/-- The assembled document, decomposed at the three newlines that isolate the
UID line and the DTSTAMP line (the only parts of the text that depend on the
generation timestamp). -/
theorem icsContent_data (st S E T D L : String) (ps : List String) :
    (icsContent st S E T D L ps).data =
      icsHeadData ++
      '\n' :: ((("        UID:".data ++ st.data) ++ "-strands@tool".data) ++
      '\n' :: (("        DTSTAMP:".data ++ st.data) ++
      '\n' :: icsTailData S E T D L ps)) := by
  simp [icsContent, icsTailData, icsHeadData, String.data_append]

/-- Masking the generation-derived lines of the document leaves a value that
does not depend on the generation timestamp at all. -/
theorem maskGenLines_icsContent (st S E T D L : String) (ps : List String)
    (h : '\n' ∉ st.data) :
    maskGenLines (icsContent st S E T D L ps).data =
      maskGenLines icsHeadData ++ [] :: [] :: maskGenLines (icsTailData S E T D L ps) := by
  have hU : '\n' ∉ ("        UID:".data ++ st.data) ++ "-strands@tool".data := by
    intro hm
    rcases List.mem_append.mp hm with hm | hm
    · rcases List.mem_append.mp hm with hm | hm
      · exact absurd hm (by decide)
      · exact h hm
    · exact absurd hm (by decide)
  have hW : '\n' ∉ "        DTSTAMP:".data ++ st.data := by
    intro hm
    rcases List.mem_append.mp hm with hm | hm
    · exact absurd hm (by decide)
    · exact h hm
  rw [icsContent_data]
  unfold maskGenLines
  rw [splitLines_newline, splitLines_newline, splitLines_newline,
    splitLines_no_newline _ hU, splitLines_no_newline _ hW]
  simp
  exact ⟨lineIsGen_uid _, lineIsGen_dtstamp _⟩

/-- C6: for every date/time pair that the fixed `%Y-%m-%d %H:%M` pattern does
not parse, `create_meeting_ics` fails with the invalid-input error (the
`InvalidInputError` of the spec taxonomy, surfaced from the `ValueError` of
`strptime`) and produces no document — there is no partial-success mode. -/
theorem create_meeting_unparseable_fails (title date time : String)
    (dur : Int) (ps : List String) (loc desc : String) (now : PyDateTime)
    (h : strptimeYmdHM (date ++ " " ++ time).data = none) :
    create_meeting_ics title date time dur ps loc desc now =
      .error .invalidInput := by
  unfold create_meeting_ics
  rw [h]

/-- Witness for C6 at the example malformed date of the spec, `"Dec 19"`. -/
theorem create_meeting_unparseable_witness :
    strptimeYmdHM ("Dec 19" ++ " " ++ "10:00").data = none ∧
    create_meeting_ics "Sprint Review" "Dec 19" "10:00" 60 ["Sarah", "David"]
      "" "" ⟨2025, 12, 1, 0, 0⟩ = .error .invalidInput :=
  ⟨by decide,
   create_meeting_unparseable_fails "Sprint Review" "Dec 19" "10:00" 60
     ["Sarah", "David"] "" "" ⟨2025, 12, 1, 0, 0⟩ (by decide)⟩

set_option maxRecDepth 100000 in
/-- C5 counterexample: at the example call of the claim, the returned
document holds exactly two occurrences of `ATTENDEE`, but only *one* of its
lines contains `ATTENDEE` — the attendee entries are concatenated on a single
shared line (the source joins them with the empty separator), so they are not
"each on its own line" as claimed. -/
theorem attendees_share_one_line :
    (create_meeting_ics "Sprint Review" "2025-12-19" "10:00" 60
        ["Sarah", "David"] "" "" ⟨2025, 12, 1, 0, 0⟩).map
      (fun s => (countSub "ATTENDEE".data s.data,
        (splitLines s.data).countP (fun l => containsSub "ATTENDEE".data l))) =
      .ok (2, 1) := rfl

set_option maxRecDepth 8192 in
/-- C5 amended: for every parseable date/time (with the event end inside the
representable year range of `datetime`), `create_meeting_ics` returns the
document whose DTSTART field renders the parsed start and whose DTEND field
renders start plus `duration_minutes` (the instant `addMinutes start_dt dur`),
both in the `YYYYMMDDTHHMMSS` pattern; the document contains the title after
`SUMMARY:`; and the attendee entries are emitted concatenated without
separator (`attendeeBlob`) on one shared line — one `ATTENDEE;CN=` occurrence
per participant, not one line per participant. -/
theorem create_meeting_document_spec (title date time : String) (dur : Int)
    (ps : List String) (loc desc : String) (now start_dt : PyDateTime)
    (hp : strptimeYmdHM (date ++ " " ++ time).data = some start_dt)
    (hy1 : 1 ≤ (addMinutes start_dt dur).year)
    (hy2 : (addMinutes start_dt dur).year ≤ 9999) :
    create_meeting_ics title date time dur ps loc desc now =
      .ok (icsContent (fmtStamp now) (fmtStamp start_dt)
        (fmtStamp (addMinutes start_dt dur)) title desc loc ps) ∧
    stampPattern (fmtStamp start_dt) = true ∧
    stampPattern (fmtStamp (addMinutes start_dt dur)) = true ∧
    (∃ A B, (icsContent (fmtStamp now) (fmtStamp start_dt)
        (fmtStamp (addMinutes start_dt dur)) title desc loc ps).data =
      A ++ ("SUMMARY:" ++ title).data ++ B) ∧
    (∃ A B, (icsContent (fmtStamp now) (fmtStamp start_dt)
        (fmtStamp (addMinutes start_dt dur)) title desc loc ps).data =
      A ++ ("DTSTART:" ++ fmtStamp start_dt).data ++ B) ∧
    (∃ A B, (icsContent (fmtStamp now) (fmtStamp start_dt)
        (fmtStamp (addMinutes start_dt dur)) title desc loc ps).data =
      A ++ ("DTEND:" ++ fmtStamp (addMinutes start_dt dur)).data ++ B) ∧
    (∃ A B, (icsContent (fmtStamp now) (fmtStamp start_dt)
        (fmtStamp (addMinutes start_dt dur)) title desc loc ps).data =
      A ++ (attendeeBlob ps).data ++ B) := by
  obtain ⟨hb1, hb2, hb3, hb4, hb5, hb6, hb7, hb8⟩ := strptime_bounds hp
  have hofb := ofMinutes_bounds (toMinutes start_dt + dur)
  refine ⟨?_, ?_, ?_, ?_, ?_, ?_, ?_⟩
  · unfold create_meeting_ics
    rw [hp]
    dsimp only
    rw [if_neg (by omega)]
  · exact stampPattern_fmtStamp start_dt hb2 (by omega) (by omega) (by omega) (by omega)
  · exact stampPattern_fmtStamp (addMinutes start_dt dur) hy2 hofb.1 hofb.2.1
      (Nat.le_trans hofb.2.2.1 (by omega)) (Nat.le_trans hofb.2.2.2 (by omega))
  · exact ⟨("BEGIN:VCALENDAR\n        VERSION:2.0\n        PRODID:-//Strands Tool//Meeting Scheduler//EN\n        BEGIN:VEVENT\n        UID:" ++
        fmtStamp now ++ "-strands@tool\n        DTSTAMP:" ++ fmtStamp now ++
        "\n        DTSTART:" ++ fmtStamp start_dt ++ "\n        DTEND:" ++
        fmtStamp (addMinutes start_dt dur) ++ "\n        ").data,
      ("\n        DESCRIPTION:" ++ desc ++ "\n        LOCATION:" ++ loc ++
        "\n        " ++ attendeeBlob ps ++
        "\n        END:VEVENT\n        END:VCALENDAR\n        ").data,
      by simp [icsContent, String.data_append]⟩
  · exact ⟨("BEGIN:VCALENDAR\n        VERSION:2.0\n        PRODID:-//Strands Tool//Meeting Scheduler//EN\n        BEGIN:VEVENT\n        UID:" ++
        fmtStamp now ++ "-strands@tool\n        DTSTAMP:" ++ fmtStamp now ++
        "\n        ").data,
      ("\n        DTEND:" ++ fmtStamp (addMinutes start_dt dur) ++
        "\n        SUMMARY:" ++ title ++ "\n        DESCRIPTION:" ++ desc ++
        "\n        LOCATION:" ++ loc ++ "\n        " ++ attendeeBlob ps ++
        "\n        END:VEVENT\n        END:VCALENDAR\n        ").data,
      by simp [icsContent, String.data_append]⟩
  · exact ⟨("BEGIN:VCALENDAR\n        VERSION:2.0\n        PRODID:-//Strands Tool//Meeting Scheduler//EN\n        BEGIN:VEVENT\n        UID:" ++
        fmtStamp now ++ "-strands@tool\n        DTSTAMP:" ++ fmtStamp now ++
        "\n        DTSTART:" ++ fmtStamp start_dt ++ "\n        ").data,
      ("\n        SUMMARY:" ++ title ++ "\n        DESCRIPTION:" ++ desc ++
        "\n        LOCATION:" ++ loc ++ "\n        " ++ attendeeBlob ps ++
        "\n        END:VEVENT\n        END:VCALENDAR\n        ").data,
      by simp [icsContent, String.data_append]⟩
  · exact ⟨("BEGIN:VCALENDAR\n        VERSION:2.0\n        PRODID:-//Strands Tool//Meeting Scheduler//EN\n        BEGIN:VEVENT\n        UID:" ++
        fmtStamp now ++ "-strands@tool\n        DTSTAMP:" ++ fmtStamp now ++
        "\n        DTSTART:" ++ fmtStamp start_dt ++ "\n        DTEND:" ++
        fmtStamp (addMinutes start_dt dur) ++ "\n        SUMMARY:" ++ title ++
        "\n        DESCRIPTION:" ++ desc ++ "\n        LOCATION:" ++ loc ++
        "\n        ").data,
      ("\n        END:VEVENT\n        END:VCALENDAR\n        ").data,
      by simp [icsContent, String.data_append]⟩

/-- Witness for the C5 amended theorem at the example call of the spec,
checking also the concrete DTSTART and DTEND stamps the spec names. -/
theorem create_meeting_document_spec_witness :
    create_meeting_ics "Sprint Review" "2025-12-19" "10:00" 60 ["Sarah", "David"]
      "" "" ⟨2025, 12, 1, 9, 30⟩ =
      .ok (icsContent (fmtStamp ⟨2025, 12, 1, 9, 30⟩) (fmtStamp ⟨2025, 12, 19, 10, 0⟩)
        (fmtStamp (addMinutes ⟨2025, 12, 19, 10, 0⟩ 60)) "Sprint Review" "" ""
        ["Sarah", "David"]) ∧
    stampPattern (fmtStamp ⟨2025, 12, 19, 10, 0⟩) = true ∧
    stampPattern (fmtStamp (addMinutes ⟨2025, 12, 19, 10, 0⟩ 60)) = true ∧
    fmtStamp ⟨2025, 12, 19, 10, 0⟩ = "20251219T100000" ∧
    fmtStamp (addMinutes ⟨2025, 12, 19, 10, 0⟩ 60) = "20251219T110000" := by
  have h := create_meeting_document_spec "Sprint Review" "2025-12-19" "10:00" 60
    ["Sarah", "David"] "" "" ⟨2025, 12, 1, 9, 30⟩ ⟨2025, 12, 19, 10, 0⟩
    (by decide) (by decide) (by decide)
  exact ⟨h.1, h.2.1, h.2.2.1, by decide, by decide⟩

/-- C7: two `create_meeting_ics` calls with identical arguments but different
wall-clock capture instants agree on every line of the produced documents —
DTSTART, DTEND, SUMMARY, ATTENDEE content included — except possibly the
generation-time-derived `UID:` and `DTSTAMP:` lines, which are the only
permitted variation (`maskGenLines` blanks exactly those lines). -/
theorem create_meeting_gen_time_only_variation (title date time : String)
    (dur : Int) (ps : List String) (loc desc : String)
    (now1 now2 : PyDateTime) (out1 out2 : String)
    (h1 : create_meeting_ics title date time dur ps loc desc now1 = .ok out1)
    (h2 : create_meeting_ics title date time dur ps loc desc now2 = .ok out2) :
    maskGenLines out1.data = maskGenLines out2.data := by
  unfold create_meeting_ics at h1 h2
  cases hp : strptimeYmdHM (date ++ " " ++ time).data with
  | none =>
      rw [hp] at h1
      exact absurd h1 (by simp)
  | some s =>
      rw [hp] at h1 h2
      dsimp only at h1 h2
      by_cases hc : (addMinutes s dur).year < 1 ∨ 9999 < (addMinutes s dur).year
      · rw [if_pos hc] at h1
        exact absurd h1 (by simp)
      · rw [if_neg hc] at h1 h2
        rw [← Except.ok.inj h1, ← Except.ok.inj h2]
        rw [maskGenLines_icsContent _ _ _ _ _ _ _ (fmtStamp_no_newline now1),
          maskGenLines_icsContent _ _ _ _ _ _ _ (fmtStamp_no_newline now2)]

/-- Witness for C7: the example call captured at two different instants. -/
theorem create_meeting_gen_time_only_witness :
    maskGenLines (icsContent (fmtStamp ⟨2025, 12, 1, 9, 30⟩)
      (fmtStamp ⟨2025, 12, 19, 10, 0⟩) (fmtStamp (addMinutes ⟨2025, 12, 19, 10, 0⟩ 60))
      "Sprint Review" "" "" ["Sarah", "David"]).data =
    maskGenLines (icsContent (fmtStamp ⟨2026, 1, 2, 3, 4⟩)
      (fmtStamp ⟨2025, 12, 19, 10, 0⟩) (fmtStamp (addMinutes ⟨2025, 12, 19, 10, 0⟩ 60))
      "Sprint Review" "" "" ["Sarah", "David"]).data :=
  create_meeting_gen_time_only_variation "Sprint Review" "2025-12-19" "10:00" 60
    ["Sarah", "David"] "" "" ⟨2025, 12, 1, 9, 30⟩ ⟨2026, 1, 2, 3, 4⟩ _ _ rfl rfl

/-- C10: a strictly negative duration is not rejected: for every parseable
date/time and negative `duration_minutes` (with the shifted end instant still
inside the representable year range of `datetime`), `create_meeting_ics`
succeeds, and the DTEND field of the returned document renders the instant
`toMinutes start_dt + dur`, which is strictly earlier than the DTSTART
instant `toMinutes start_dt` — no validation enforces a non-negative
duration.  (Outside the representable range `datetime` arithmetic raises
`OverflowError`, modelled by the `.overflow` branch; that limit is a
representation bound, not a duration validation.) -/
theorem create_meeting_negative_duration (title date time : String) (dur : Int)
    (ps : List String) (loc desc : String) (now start_dt : PyDateTime)
    (hp : strptimeYmdHM (date ++ " " ++ time).data = some start_dt)
    (hneg : dur < 0)
    (hy1 : 1 ≤ (addMinutes start_dt dur).year)
    (hy2 : (addMinutes start_dt dur).year ≤ 9999) :
    create_meeting_ics title date time dur ps loc desc now =
      .ok (icsContent (fmtStamp now) (fmtStamp start_dt)
        (fmtStamp (addMinutes start_dt dur)) title desc loc ps) ∧
    toMinutes start_dt + dur < toMinutes start_dt := by
  constructor
  · unfold create_meeting_ics
    rw [hp]
    dsimp only
    rw [if_neg (by omega)]
  · omega

/-- Witness for C10: thirty minutes of negative duration at the example
start, with the DTEND stamp landing half an hour before DTSTART. -/
theorem create_meeting_negative_duration_witness :
    (create_meeting_ics "Sprint Review" "2025-12-19" "10:00" (-30) ["Sarah"]
        "" "" ⟨2025, 12, 1, 0, 0⟩ =
      .ok (icsContent (fmtStamp ⟨2025, 12, 1, 0, 0⟩) (fmtStamp ⟨2025, 12, 19, 10, 0⟩)
        (fmtStamp (addMinutes ⟨2025, 12, 19, 10, 0⟩ (-30))) "Sprint Review" "" "" ["Sarah"]) ∧
     toMinutes ⟨2025, 12, 19, 10, 0⟩ + (-30) < toMinutes ⟨2025, 12, 19, 10, 0⟩) ∧
    fmtStamp (addMinutes ⟨2025, 12, 19, 10, 0⟩ (-30)) = "20251219T093000" :=
  ⟨create_meeting_negative_duration "Sprint Review" "2025-12-19" "10:00" (-30)
      ["Sarah"] "" "" ⟨2025, 12, 1, 0, 0⟩ ⟨2025, 12, 19, 10, 0⟩ (by decide)
      (by decide) (by decide) (by decide),
   by decide⟩

/-- C10 counterexample to full universality: at an extreme negative duration
(about 3800 years backwards) the shifted end leaves the representable year
range of `datetime`, so the addition raises `OverflowError` and the call does
not succeed — the unrestricted "for every strictly negative duration it
succeeds" fails there, although no *duration-sign* validation is involved. -/
theorem create_meeting_extreme_negative_overflows :
    create_meeting_ics "Sprint Review" "2025-12-19" "10:00" (-2000000000)
      ["Sarah"] "" "" ⟨2025, 12, 1, 0, 0⟩ = .error .overflow := rfl
